import Mathlib

/-!
Shallow embedding of the sia-rust HTTP client layer.

Two clients exist in the sources:
* `NativeClient` (`src/http/client/native.rs`) — the generic, contract-based client:
  header construction, a liveness probe on construction, and the `dispatcher` that
  resolves HTTP status codes uniformly for every typed request.
* `SiaApiClientImpl` / `SiaApiClient` (`http_client.rs`) — the ad hoc client with a
  hand-written `get_consensus_tip` / `get_height`.

External collaborators (the `reqwest` transport, the `url` crate, serde, the `base64`
and `http` crates) are embedded as follows: the transport is an explicit oracle
argument producing either a transport-level error or an HTTP response (status plus
body); JSON bodies are an abstract inductive `Body` together with per-request decoders
standing in for serde; base64 and UTF-8 encoding are implemented concretely; header
value validity follows the `http` crate's byte rule. Types that live in the
repository's `crate::http::client` and `crate::http::endpoints` modules (absent from
the sources available here) are modelled from the spec and marked as such.
-/

deriving instance DecidableEq for Except

/-- HTTP method of a request (the subset this client layer uses). -/
inductive HttpMethod where
  | GET
  | POST
deriving DecidableEq, Repr

/-- Abstract JSON body of an HTTP response: either a well-formed encoding of a known
response shape or arbitrary other content. Stands in for the serde layer. -/
inductive Body where
  | empty
  | consensusTip (height : Nat) (id : String)
  | other (raw : String)
deriving DecidableEq, Repr

/-- Kind of a `reqwest::Error`, as far as this layer can observe it: a per-call
timeout, a connection-level failure, a body-decode failure, or anything else. -/
inductive ReqwestErrKind where
  | timeout
  | connect
  | decode
  | other
deriving DecidableEq, Repr

/-- A `reqwest::Error`: its kind, its message, and the URL optionally attached via
`reqwest::Error::with_url`. -/
structure ReqwestErr where
  kind : ReqwestErrKind
  msg : String
  url : Option String
deriving DecidableEq, Repr

/-- `reqwest::Error::with_url`: attach a URL to the error for diagnostics. -/
def ReqwestErr.with_url (e : ReqwestErr) (u : String) : ReqwestErr :=
  ReqwestErr.mk e.kind e.msg (some u)

/-- Error type of the generic client contract (`ApiClientError` in
`crate::http::client`). The variants constructed in `native.rs` are `BuildError`,
`ReqwestError`, `UnexpectedHttpStatus` and `UnexpectedEmptyResponse`; `UrlParse` is
produced by URL binding and `Timeout` is the distinct timed-out kind the spec's error
taxonomy (section 7) requires. -/
inductive ApiClientError where
  | BuildError (msg : String)
  | UrlParse (msg : String)
  | UnexpectedHttpStatus (status : Nat)
  | UnexpectedEmptyResponse (expected_type : String)
  | ReqwestError (e : ReqwestErr)
  | Timeout (msg : String)
deriving DecidableEq, Repr

/-- Error type of the ad hoc client (`SiaApiClientError` in `http_client.rs`). -/
inductive SiaApiClientError where
  | Timeout (msg : String)
  | BuildError (msg : String)
  | ApiUnreachable (msg : String)
  | ReqwestError (e : ReqwestErr)
  | UrlParse (msg : String)
deriving DecidableEq, Repr

/-- A URL, kept as its textual rendering. -/
structure Url where
  s : String
deriving DecidableEq, Repr

/-- Modelled from the spec: standard URL-join semantics (section 4.1) — the relative
path resolves under the base's path prefix, and a malformed path template fails fast.
The `url` crate implementing `Url::join` is outside the repository's sources. -/
def Url.join (u : Url) (path : String) : Except String Url :=
  if path.data.any (fun c => c = ' ') then
    Except.error ("invalid relative path: " ++ path)
  else if u.s.data.getLast? = some '/' then
    Except.ok (Url.mk (u.s ++ path))
  else
    Except.ok (Url.mk (u.s ++ "/" ++ path))

/-- Modelled from the spec: an Endpoint Schema is a data description of one HTTP
call — method, relative path template, optional body (section 3). The
`EndpointSchema` type lives in `crate::http::client`, outside the sources here. -/
structure EndpointSchema where
  method : HttpMethod
  path : String
  body : Option String
deriving DecidableEq, Repr

/-- Modelled from the spec: `EndpointSchema::build_url` joins the schema's path against
the base URL, failing fast with a structured URL-parse error on a malformed template
(section 4.1). -/
def EndpointSchema.build_url (schema : EndpointSchema) (base_url : Url) :
    Except ApiClientError Url :=
  match base_url.join schema.path with
  | Except.error e => Except.error (ApiClientError.UrlParse e)
  | Except.ok u => Except.ok u

/-- The transport-level request, `reqwest::Request::new(method, url)`. -/
structure TransportRequest where
  method : HttpMethod
  url : Url
deriving DecidableEq, Repr

/-- The transport-level response: an HTTP status code and a body. -/
structure HttpResponse where
  status : Nat
  body : Body
deriving DecidableEq, Repr

/-- The transport oracle: given the client's running call count and a transport
request, either a transport-level error (connection failure, timeout, ...) or an HTTP
response. Indexing by the call count makes the number of calls a client performs
observable. -/
abbrev Transport := Nat → TransportRequest → Except ReqwestErr HttpResponse

/-- UTF-8 encoding of one character as its byte values. -/
def utf8Bytes (c : Char) : List Nat :=
  let n := c.toNat
  if n < 128 then [n]
  else if n < 2048 then [192 + n / 64, 128 + n % 64]
  else if n < 65536 then [224 + n / 4096, 128 + (n / 64) % 64, 128 + n % 64]
  else [240 + n / 262144, 128 + (n / 4096) % 64, 128 + (n / 64) % 64, 128 + n % 64]

/-- UTF-8 bytes of a string. -/
def strBytes (s : String) : List Nat := (s.data.map utf8Bytes).flatten

/-- The standard base64 alphabet. -/
def b64Alphabet : List Char :=
  "ABCDEFGHIJKLMNOPQRSTUVWXYZabcdefghijklmnopqrstuvwxyz0123456789+/".data

/-- Character of the standard base64 alphabet at a 6-bit index. -/
def b64char (n : Nat) : Char := b64Alphabet.getD n '='

/-- Standard base64 encoding with padding (the `base64::engine::general_purpose::
STANDARD` engine in `native.rs`, `base64::encode` in `http_client.rs`). -/
def base64Encode : List Nat → String
  | [] => ""
  | [a] =>
    String.mk [b64char (a / 4), b64char ((a % 4) * 16), '=', '=']
  | [a, b] =>
    String.mk [b64char (a / 4), b64char ((a % 4) * 16 + b / 16), b64char ((b % 16) * 4), '=']
  | a :: b :: c :: rest =>
    String.mk [b64char (a / 4), b64char ((a % 4) * 16 + b / 16),
               b64char ((b % 16) * 4 + c / 64), b64char (c % 64)] ++ base64Encode rest

/-- Header-value byte validity as checked by `http::header::HeaderValue::from_str`:
horizontal tab, or any byte that is neither an ASCII control character nor DEL. -/
def headerValidByte (b : Nat) : Bool := b = 9 || (32 ≤ b && b ≠ 127)

/-- `HeaderValue::from_str`: succeeds exactly when every byte of the string is a valid
header-value byte. -/
def headerValueFromStr (s : String) : Except String String :=
  if (strBytes s).all headerValidByte then Except.ok s
  else Except.error "failed to parse header value"

/-- The Authorization header value both clients build once at construction:
`"Basic "` followed by the base64 encoding of `":"` concatenated with the password. -/
def authValue (password : String) : String :=
  "Basic " ++ base64Encode (strBytes (":" ++ password))

/-- Modelled from the spec: client configuration `{url, password, timeout}` with the
timeout in seconds and optional (section 3); `ClientConf` lives in
`crate::http::client`, outside the sources here. -/
structure ClientConf where
  url : Url
  password : String
  timeout : Option Nat
deriving DecidableEq, Repr

/-- Modelled from the spec: the capability a typed request carries (trait
`SiaApiRequest` in `crate::http::endpoints`, outside the sources here): its endpoint
schema, its declared empty-success value for its associated response type `ρ`, and the
serde decoding of a body into `ρ` (sections 3 and 9). `responseTypeName` stands in for
`std::any::type_name` of the response type. -/
structure SiaApiRequest (ρ : Type) where
  to_endpoint_schema : Except ApiClientError EndpointSchema
  is_empty_response : Option ρ
  decodeBody : Body → Option ρ
  responseTypeName : String

/-- Response of the consensus-tip endpoint (`GetConsensusTipResponse` in
`http_client.rs`): chain height plus block id. -/
structure GetConsensusTipResponse where
  height : Nat
  id : String
deriving DecidableEq, Repr

/-- Serde decoding of a response body as `GetConsensusTipResponse`: succeeds exactly
when the body is a well-formed encoding of that shape. -/
def decodeTip : Body → Option GetConsensusTipResponse
  | Body.consensusTip h i => some (GetConsensusTipResponse.mk h i)
  | _ => none

/-- Modelled from the spec: the "current chain height" request, a GET of
`api/consensus/tip` with no body and no declared empty-success value (section 6);
`ConsensusTipRequest` lives in `crate::http::endpoints`, outside the sources here. -/
def ConsensusTipRequest : SiaApiRequest GetConsensusTipResponse :=
  SiaApiRequest.mk
    (Except.ok (EndpointSchema.mk HttpMethod.GET "api/consensus/tip" none))
    none
    decodeTip
    "ConsensusTipResponse"

/-- The concrete native client (`NativeClient` in `native.rs`): the base URL plus the
state baked into its `reqwest::Client` — the default Authorization header and the
per-call timeout in seconds. -/
structure NativeClient where
  authHeader : String
  timeoutSecs : Nat
  base_url : Url
deriving DecidableEq, Repr

/-- `NativeClient::process_schema`: bind a schema against this client's base URL into
a transport request, `reqwest::Request::new(schema.method, url)`. -/
def NativeClient.process_schema (c : NativeClient) (schema : EndpointSchema) :
    Except ApiClientError TransportRequest :=
  match schema.build_url c.base_url with
  | Except.error e => Except.error e
  | Except.ok url => Except.ok (TransportRequest.mk schema.method url)

/-- `NativeClient::to_data_request`: ask the typed request for its schema, then
`process_schema`. -/
def NativeClient.to_data_request {ρ : Type} (c : NativeClient) (req : SiaApiRequest ρ) :
    Except ApiClientError TransportRequest :=
  match req.to_endpoint_schema with
  | Except.error e => Except.error e
  | Except.ok schema => c.process_schema schema

/-- `NativeClient::execute_request`: hand the request to the transport and surface a
transport failure as `ApiClientError::ReqwestError`. Returns the result together with
the updated call count. -/
def NativeClient.execute_request (_c : NativeClient) (exec : Transport) (n : Nat)
    (r : TransportRequest) : (Except ApiClientError HttpResponse) × Nat :=
  match exec n r with
  | Except.error e => (Except.error (ApiClientError.ReqwestError e), n + 1)
  | Except.ok resp => (Except.ok resp, n + 1)

/-- `NativeClient::dispatcher`: the full round trip — build the transport request,
execute it (one transport call), then resolve the status code: 200 decodes the body
(a decode failure is a `ReqwestError` of decode kind), 204 returns the request's
declared empty-success value or `UnexpectedEmptyResponse` with the response type's
name, and any other status is `UnexpectedHttpStatus` carrying that status. Returns the
result together with the updated transport call count. -/
def NativeClient.dispatcher {ρ : Type} (c : NativeClient) (req : SiaApiRequest ρ)
    (exec : Transport) (n : Nat) : (Except ApiClientError ρ) × Nat :=
  match c.to_data_request req with
  | Except.error e => (Except.error e, n)
  | Except.ok treq =>
    match exec n treq with
    | Except.error e => (Except.error (ApiClientError.ReqwestError e), n + 1)
    | Except.ok resp =>
      if resp.status = 200 then
        match req.decodeBody resp.body with
        | some v => (Except.ok v, n + 1)
        | none =>
          (Except.error (ApiClientError.ReqwestError
            (ReqwestErr.mk ReqwestErrKind.decode "error decoding response body" none)), n + 1)
      else if resp.status = 204 then
        match req.is_empty_response with
        | some v => (Except.ok v, n + 1)
        | none =>
          (Except.error (ApiClientError.UnexpectedEmptyResponse req.responseTypeName), n + 1)
      else
        (Except.error (ApiClientError.UnexpectedHttpStatus resp.status), n + 1)

/-- `NativeClient::new` (`ApiClient::new` in `native.rs`): build the Authorization
header once (failure is `BuildError`), build the reqwest client with that default
header and the configured timeout (default 10 seconds; a reqwest builder failure,
which is environment- rather than input-dependent, is the `buildRes` argument and maps
to `ReqwestError`), then ping the server once with `ConsensusTipRequest` before
returning the client. Returns the result together with the number of transport calls
made during construction. -/
def NativeClient.new (conf : ClientConf) (exec : Transport)
    (buildRes : Except ReqwestErr Unit) : (Except ApiClientError NativeClient) × Nat :=
  match headerValueFromStr (authValue conf.password) with
  | Except.error e => (Except.error (ApiClientError.BuildError e), 0)
  | Except.ok _ =>
    match buildRes with
    | Except.error e => (Except.error (ApiClientError.ReqwestError e), 0)
    | Except.ok _ =>
      let ret := NativeClient.mk (authValue conf.password) (conf.timeout.getD 10) conf.url
      match ret.dispatcher ConsensusTipRequest exec 0 with
      | (Except.error e, n) => (Except.error e, n)
      | (Except.ok _, n) => (Except.ok ret, n)

/-- `ApiClientHelpers::current_height` for `NativeClient`: dispatch
`ConsensusTipRequest` and project out the `height` field of its response. -/
def NativeClient.current_height (c : NativeClient) (exec : Transport) (n : Nat) :
    (Except ApiClientError Nat) × Nat :=
  match c.dispatcher ConsensusTipRequest exec n with
  | (Except.error e, n') => (Except.error e, n')
  | (Except.ok resp, n') => (Except.ok resp.height, n')

/-- The ad hoc client of `http_client.rs` (`SiaApiClientImpl`): a reqwest client
holding the default Authorization header and a fixed 10-second timeout, plus the base
URL. -/
structure SiaApiClientImpl where
  authHeader : String
  timeoutSecs : Nat
  base_url : Url
deriving DecidableEq, Repr

/-- `SiaApiClientImpl::new`: build the Authorization header (failure is `BuildError`),
then build the reqwest client (builder failure, environment-dependent, is `buildRes`,
turned into `ReqwestError` tagged with the base URL). No request is issued during
construction. -/
def SiaApiClientImpl.new (base_url : Url) (password : String)
    (buildRes : Except ReqwestErr Unit) : Except SiaApiClientError SiaApiClientImpl :=
  match headerValueFromStr (authValue password) with
  | Except.error e => Except.error (SiaApiClientError.BuildError e)
  | Except.ok _ =>
    match buildRes with
    | Except.error e => Except.error (SiaApiClientError.ReqwestError (e.with_url base_url.s))
    | Except.ok _ => Except.ok (SiaApiClientImpl.mk (authValue password) 10 base_url)

/-- `SiaApiClientImpl::get_consensus_tip`: join `api/consensus/tip` onto the base URL
(failure is `UrlParse`), GET it (a transport failure is `ReqwestError` tagged with the
endpoint URL), then decode the body as `GetConsensusTipResponse` via `Response::json`
(a decode failure is again `ReqwestError` tagged with the endpoint URL). The status
code is never inspected. -/
def SiaApiClientImpl.get_consensus_tip (c : SiaApiClientImpl)
    (exec : TransportRequest → Except ReqwestErr HttpResponse) :
    Except SiaApiClientError GetConsensusTipResponse :=
  match c.base_url.join "api/consensus/tip" with
  | Except.error e => Except.error (SiaApiClientError.UrlParse e)
  | Except.ok endpoint_url =>
    match exec (TransportRequest.mk HttpMethod.GET endpoint_url) with
    | Except.error e => Except.error (SiaApiClientError.ReqwestError (e.with_url endpoint_url.s))
    | Except.ok resp =>
      match decodeTip resp.body with
      | some v => Except.ok v
      | none =>
        Except.error (SiaApiClientError.ReqwestError
          ((ReqwestErr.mk ReqwestErrKind.decode "error decoding response body" none).with_url
            endpoint_url.s))

/-- `SiaApiClientImpl::get_height`: `get_consensus_tip` then project out `height`. -/
def SiaApiClientImpl.get_height (c : SiaApiClientImpl)
    (exec : TransportRequest → Except ReqwestErr HttpResponse) :
    Except SiaApiClientError Nat :=
  match c.get_consensus_tip exec with
  | Except.error e => Except.error e
  | Except.ok resp => Except.ok resp.height

/-- `SiaApiClient` (`http_client.rs`): the shared wrapper around `SiaApiClientImpl`. -/
structure SiaApiClient where
  inner : SiaApiClientImpl
deriving DecidableEq, Repr

/-- `SiaApiClient::new`: forwards to `SiaApiClientImpl::new`; the first argument is
bound as `_coin_ticker` in the source and never used. -/
def SiaApiClient.new (_coin_ticker : String) (base_url : Url) (auth : String)
    (buildRes : Except ReqwestErr Unit) : Except SiaApiClientError SiaApiClient :=
  match SiaApiClientImpl.new base_url auth buildRes with
  | Except.error e => Except.error e
  | Except.ok impl => Except.ok (SiaApiClient.mk impl)

/-- Whether an `ApiClientError` is the `Timeout` variant. -/
def ApiClientError.isTimeoutVariant : ApiClientError → Bool
  | ApiClientError.Timeout _ => true
  | _ => false

/-- Whether an `ApiClientError` is the `BuildError` variant. -/
def ApiClientError.isBuildErrorVariant : ApiClientError → Bool
  | ApiClientError.BuildError _ => true
  | _ => false

/-- Whether a `SiaApiClientError` is the `Timeout` variant. -/
def SiaApiClientError.isTimeoutVariant : SiaApiClientError → Bool
  | SiaApiClientError.Timeout _ => true
  | _ => false

/-- Whether a `SiaApiClientError` is the `BuildError` variant. -/
def SiaApiClientError.isBuildErrorVariant : SiaApiClientError → Bool
  | SiaApiClientError.BuildError _ => true
  | _ => false

/-- Whether an `Except` result is an error whose variant the classifier accepts. -/
def errsWith {ε α : Type} (p : ε → Bool) : Except ε α → Bool
  | Except.error e => p e
  | Except.ok _ => false

/-- Whether an `Except` value is `ok`. -/
def exceptIsOk {ε α : Type} : Except ε α → Bool
  | Except.ok _ => true
  | Except.error _ => false

/-- A transport oracle answering every call with 200 and the tip body of the spec's
example (height 500000). -/
def tipMockTransport : Transport :=
  fun _ _ => Except.ok (HttpResponse.mk 200 (Body.consensusTip 500000 "abc"))

/-- The spec's example configuration. -/
def exampleConf : ClientConf :=
  ClientConf.mk (Url.mk "https://node.example/") "password" (some 10)

/-- The client the spec's example configuration produces. -/
def exampleClient : NativeClient :=
  NativeClient.mk (authValue "password") 10 (Url.mk "https://node.example/")

/-- A connection-level transport error. -/
def connectErr : ReqwestErr := ReqwestErr.mk ReqwestErrKind.connect "connection refused" none

/-- A per-call-deadline transport error. -/
def timeoutErr : ReqwestErr := ReqwestErr.mk ReqwestErrKind.timeout "operation timed out" none

/-- A transport oracle answering every call with 204 No Content. -/
def noContentTransport : Transport :=
  fun _ _ => Except.ok (HttpResponse.mk 204 Body.empty)

/-- A transport oracle answering every call with 500 and an opaque body. -/
def status500Transport : Transport :=
  fun _ _ => Except.ok (HttpResponse.mk 500 (Body.other "internal server error"))

/-- A transport oracle that fails every call with a connection-level error. -/
def unreachableTransport : Transport := fun _ _ => Except.error connectErr

/-- A plain (uncounted) transport oracle answering with 500 but a well-formed tip
body. -/
def status500TipExec : TransportRequest → Except ReqwestErr HttpResponse :=
  fun _ => Except.ok (HttpResponse.mk 500 (Body.consensusTip 500000 "abc"))

/-- The ad hoc client built from the spec's example configuration. -/
def siaExampleClient : SiaApiClientImpl :=
  SiaApiClientImpl.mk (authValue "password") 10 (Url.mk "https://node.example/")

/-- C1: for every typed request dispatched through the client, a 200 response whose
body decodes as the request's expected response shape yields exactly the decoded
value, and a 200 response whose body does not decode yields a decode-kind
`ReqwestError`, never a partially-populated or defaulted value. -/
theorem c1_dispatch_200_decodes_exactly {ρ : Type} (c : NativeClient)
    (req : SiaApiRequest ρ) (exec : Transport) (n : Nat) (treq : TransportRequest)
    (resp : HttpResponse) (hreq : c.to_data_request req = Except.ok treq)
    (hexec : exec n treq = Except.ok resp) (hstatus : resp.status = 200) :
    (∀ v, req.decodeBody resp.body = some v → (c.dispatcher req exec n).1 = Except.ok v) ∧
    (req.decodeBody resp.body = none →
      (c.dispatcher req exec n).1 = Except.error (ApiClientError.ReqwestError
        (ReqwestErr.mk ReqwestErrKind.decode "error decoding response body" none))) := by
  unfold NativeClient.dispatcher
  rw [hreq]
  simp only [hexec, hstatus]
  constructor
  · intro v hv
    simp [hv]
  · intro hv
    simp [hv]

/-- Closed instance of C1 at the spec's example transport. -/
theorem c1_dispatch_200_decodes_exactly_witness :
    (exampleClient.dispatcher ConsensusTipRequest tipMockTransport 0).1 =
      Except.ok (GetConsensusTipResponse.mk 500000 "abc") :=
  (c1_dispatch_200_decodes_exactly exampleClient ConsensusTipRequest tipMockTransport 0
      (TransportRequest.mk HttpMethod.GET (Url.mk "https://node.example/api/consensus/tip"))
      (HttpResponse.mk 200 (Body.consensusTip 500000 "abc"))
      (by decide) rfl rfl).1
    (GetConsensusTipResponse.mk 500000 "abc") rfl

/-- C2: for every typed request dispatched through the client, a 204 response yields
the request's declared empty-success value when one exists, and the
`UnexpectedEmptyResponse` error naming the expected response type when none does. -/
theorem c2_dispatch_204_empty_success {ρ : Type} (c : NativeClient)
    (req : SiaApiRequest ρ) (exec : Transport) (n : Nat) (treq : TransportRequest)
    (resp : HttpResponse) (hreq : c.to_data_request req = Except.ok treq)
    (hexec : exec n treq = Except.ok resp) (hstatus : resp.status = 204) :
    (∀ v, req.is_empty_response = some v → (c.dispatcher req exec n).1 = Except.ok v) ∧
    (req.is_empty_response = none →
      (c.dispatcher req exec n).1 =
        Except.error (ApiClientError.UnexpectedEmptyResponse req.responseTypeName)) := by
  unfold NativeClient.dispatcher
  rw [hreq]
  simp only [hexec, hstatus]
  constructor
  · intro v hv
    simp [hv]
  · intro hv
    simp [hv]

/-- Closed instance of C2: the tip request declares no empty-success value, so a 204
resolves to `UnexpectedEmptyResponse`. -/
theorem c2_dispatch_204_empty_success_witness :
    (exampleClient.dispatcher ConsensusTipRequest noContentTransport 0).1 =
      Except.error (ApiClientError.UnexpectedEmptyResponse "ConsensusTipResponse") :=
  (c2_dispatch_204_empty_success exampleClient ConsensusTipRequest noContentTransport 0
      (TransportRequest.mk HttpMethod.GET (Url.mk "https://node.example/api/consensus/tip"))
      (HttpResponse.mk 204 Body.empty)
      (by decide) rfl rfl).2 rfl

/-- C3: for every typed request dispatched through the client, a response whose status
is neither 200 nor 204 resolves to `UnexpectedHttpStatus` carrying that exact status,
independently of the response body and without decoding it. -/
theorem c3_dispatch_other_status {ρ : Type} (c : NativeClient)
    (req : SiaApiRequest ρ) (exec : Transport) (n : Nat) (treq : TransportRequest)
    (resp : HttpResponse) (hreq : c.to_data_request req = Except.ok treq)
    (hexec : exec n treq = Except.ok resp) (h200 : resp.status ≠ 200)
    (h204 : resp.status ≠ 204) :
    (c.dispatcher req exec n).1 =
      Except.error (ApiClientError.UnexpectedHttpStatus resp.status) := by
  unfold NativeClient.dispatcher
  rw [hreq]
  simp [hexec, h200, h204]

/-- Closed instance of C3 at a 500 status. -/
theorem c3_dispatch_other_status_witness :
    (exampleClient.dispatcher ConsensusTipRequest status500Transport 0).1 =
      Except.error (ApiClientError.UnexpectedHttpStatus 500) :=
  c3_dispatch_other_status exampleClient ConsensusTipRequest status500Transport 0
    (TransportRequest.mk HttpMethod.GET (Url.mk "https://node.example/api/consensus/tip"))
    (HttpResponse.mk 500 (Body.other "internal server error"))
    (by decide) rfl (by decide) (by decide)

/-- C4: for every typed request whose schema construction succeeds, a successful
`to_data_request` produces the transport request whose URL is the client's base URL
joined with the schema's path and whose method is the schema's method. -/
theorem c4_to_data_request_binds_schema {ρ : Type} (c : NativeClient)
    (req : SiaApiRequest ρ) (schema : EndpointSchema) (treq : TransportRequest)
    (hschema : req.to_endpoint_schema = Except.ok schema)
    (h : c.to_data_request req = Except.ok treq) :
    c.base_url.join schema.path = Except.ok treq.url ∧ treq.method = schema.method := by
  unfold NativeClient.to_data_request at h
  rw [hschema] at h
  simp only [NativeClient.process_schema, EndpointSchema.build_url] at h
  cases hj : c.base_url.join schema.path with
  | error e =>
    rw [hj] at h
    simp at h
  | ok u =>
    rw [hj] at h
    simp at h
    subst h
    exact ⟨rfl, rfl⟩

/-- Closed instance of C4 at the consensus-tip request. -/
theorem c4_to_data_request_binds_schema_witness :
    Url.join (Url.mk "https://node.example/") "api/consensus/tip" =
      Except.ok (Url.mk "https://node.example/api/consensus/tip") ∧
    HttpMethod.GET = HttpMethod.GET :=
  c4_to_data_request_binds_schema exampleClient ConsensusTipRequest
    (EndpointSchema.mk HttpMethod.GET "api/consensus/tip" none)
    (TransportRequest.mk HttpMethod.GET (Url.mk "https://node.example/api/consensus/tip"))
    rfl (by decide)

/-- Joining the consensus-tip path onto any base URL succeeds. -/
theorem join_tip_isOk (u : Url) : ∃ v, Url.join u "api/consensus/tip" = Except.ok v := by
  unfold Url.join
  rw [if_neg (by decide)]
  by_cases hl : u.s.data.getLast? = some '/'
  · rw [if_pos hl]
    exact ⟨_, rfl⟩
  · rw [if_neg hl]
    exact ⟨_, rfl⟩

/-- Dispatching the consensus-tip request never yields `BuildError` and always makes
exactly one transport call. -/
theorem dispatcher_tip_no_build_error (c : NativeClient) (exec : Transport) (n : Nat) :
    errsWith ApiClientError.isBuildErrorVariant ((c.dispatcher ConsensusTipRequest exec n).1)
        = false ∧
    (c.dispatcher ConsensusTipRequest exec n).2 = n + 1 := by
  obtain ⟨u, hu⟩ := join_tip_isOk c.base_url
  unfold NativeClient.dispatcher NativeClient.to_data_request NativeClient.process_schema
    EndpointSchema.build_url ConsensusTipRequest
  simp only [hu]
  cases he : exec n (TransportRequest.mk HttpMethod.GET u) with
  | error e => simp [errsWith, ApiClientError.isBuildErrorVariant]
  | ok resp =>
    by_cases h200 : resp.status = 200
    · simp only [h200]
      cases hd : decodeTip resp.body with
      | none => simp [errsWith, ApiClientError.isBuildErrorVariant]
      | some v => simp [errsWith]
    · by_cases h204 : resp.status = 204
      · simp [h200, h204, errsWith, ApiClientError.isBuildErrorVariant]
      · simp [h200, h204, errsWith, ApiClientError.isBuildErrorVariant]

/-- C5 (amended): `NativeClient::new` with a successfully built header and transport
client performs exactly one transport call — the consensus-tip liveness probe against
the URL joined from the base — before returning; if that probe fails at the transport
level (node unreachable or timed out) construction fails with the transport error
wrapped as `ReqwestError`, never with `BuildError`. -/
theorem c5_native_new_single_probe (conf : ClientConf) (exec : Transport)
    (hhdr : exceptIsOk (headerValueFromStr (authValue conf.password)) = true) :
    (NativeClient.new conf exec (Except.ok ())).2 = 1 ∧
    (∀ u e, conf.url.join "api/consensus/tip" = Except.ok u →
      exec 0 (TransportRequest.mk HttpMethod.GET u) = Except.error e →
      (NativeClient.new conf exec (Except.ok ())).1 =
        Except.error (ApiClientError.ReqwestError e)) ∧
    errsWith ApiClientError.isBuildErrorVariant ((NativeClient.new conf exec (Except.ok ())).1)
        = false := by
  unfold NativeClient.new
  cases hh : headerValueFromStr (authValue conf.password) with
  | error e => rw [hh] at hhdr; simp [exceptIsOk] at hhdr
  | ok s =>
    simp only []
    have hclient := dispatcher_tip_no_build_error
      (NativeClient.mk (authValue conf.password) (conf.timeout.getD 10) conf.url) exec 0
    obtain ⟨u0, hu0⟩ := join_tip_isOk conf.url
    refine ⟨?_, ?_, ?_⟩
    · cases hd : (NativeClient.mk (authValue conf.password) (conf.timeout.getD 10)
          conf.url).dispatcher ConsensusTipRequest exec 0 with
      | mk r m =>
        rw [hd] at hclient
        cases r with
        | error e => simpa [hd] using hclient.2
        | ok v => simpa [hd] using hclient.2
    · intro u e hju he
      rw [hu0] at hju
      have hu : u = u0 := by
        cases hju
        rfl
      subst hu
      have hrun : (NativeClient.mk (authValue conf.password) (conf.timeout.getD 10)
          conf.url).dispatcher ConsensusTipRequest exec 0 =
          (Except.error (ApiClientError.ReqwestError e), 1) := by
        unfold NativeClient.dispatcher NativeClient.to_data_request
          NativeClient.process_schema EndpointSchema.build_url ConsensusTipRequest
        simp only [hu0]
        simp [he]
      simp [hrun]
    · cases hd : (NativeClient.mk (authValue conf.password) (conf.timeout.getD 10)
          conf.url).dispatcher ConsensusTipRequest exec 0 with
      | mk r m =>
        rw [hd] at hclient
        cases r with
        | error e => simpa [hd] using hclient.1
        | ok v => simp [hd, errsWith]

/-- Closed instance of the amended C5: against an unreachable node, construction with
the spec's example configuration makes its single probe and fails with the transport
error, not a build error. -/
theorem c5_native_new_single_probe_witness :
    exceptIsOk (headerValueFromStr (authValue "password")) = true ∧
    (NativeClient.new exampleConf unreachableTransport (Except.ok ())).2 = 1 ∧
    (NativeClient.new exampleConf unreachableTransport (Except.ok ())).1 =
      Except.error (ApiClientError.ReqwestError connectErr) := by
  refine ⟨by decide, ?_, ?_⟩
  · exact (c5_native_new_single_probe exampleConf unreachableTransport (by decide)).1
  · exact (c5_native_new_single_probe exampleConf unreachableTransport (by decide)).2.1
      (Url.mk "https://node.example/api/consensus/tip") connectErr (by decide) rfl

/-- C5 counterexample: `SiaApiClientImpl::new` — also client construction, and a cited
source of this claim — takes no transport interaction at all and returns a client
without any liveness probe, so construction against an unreachable base URL succeeds
rather than failing with a transport or timeout error. -/
theorem c5_sia_new_no_probe_counterexample :
    SiaApiClientImpl.new (Url.mk "http://unreachable.example/") "password" (Except.ok ()) =
      Except.ok (SiaApiClientImpl.mk (authValue "password") 10
        (Url.mk "http://unreachable.example/")) := by
  decide

/-- C6: the code's behaviour contradicting the claim — neither `get_consensus_tip` nor
`get_height` can ever resolve to the distinct `Timeout` variant (their only failure
constructors are `UrlParse` and `ReqwestError`), and at the failing input of the
repository's own `test_api_client_timeout` (an elapsed per-call deadline) the result
is `ReqwestError` wrapping the timeout, indistinguishable as a variant from any other
transport error. -/
theorem c6_timeout_variant_never_produced :
    (∀ (c : SiaApiClientImpl) (exec : TransportRequest → Except ReqwestErr HttpResponse),
      errsWith SiaApiClientError.isTimeoutVariant (c.get_consensus_tip exec) = false) ∧
    (∀ (c : SiaApiClientImpl) (exec : TransportRequest → Except ReqwestErr HttpResponse),
      errsWith SiaApiClientError.isTimeoutVariant (c.get_height exec) = false) ∧
    (SiaApiClientImpl.mk (authValue "password") 10 (Url.mk "http://foo")).get_consensus_tip
        (fun _ => Except.error timeoutErr) =
      Except.error (SiaApiClientError.ReqwestError
        (timeoutErr.with_url "http://foo/api/consensus/tip")) := by
  have hmain : ∀ (c : SiaApiClientImpl)
      (exec : TransportRequest → Except ReqwestErr HttpResponse),
      errsWith SiaApiClientError.isTimeoutVariant (c.get_consensus_tip exec) = false := by
    intro c exec
    unfold SiaApiClientImpl.get_consensus_tip
    cases hj : c.base_url.join "api/consensus/tip" with
    | error e => simp [errsWith, SiaApiClientError.isTimeoutVariant]
    | ok endpoint_url =>
      cases he : exec (TransportRequest.mk HttpMethod.GET endpoint_url) with
      | error e => simp [he, errsWith, SiaApiClientError.isTimeoutVariant]
      | ok resp =>
        cases hd : decodeTip resp.body with
        | none => simp [he, hd, errsWith, SiaApiClientError.isTimeoutVariant]
        | some v => simp [he, hd, errsWith]
  refine ⟨hmain, ?_, by decide⟩
  intro c exec
  unfold SiaApiClientImpl.get_height
  have h := hmain c exec
  cases hr : c.get_consensus_tip exec with
  | error e =>
    rw [hr] at h
    simpa [errsWith] using h
  | ok resp => simp [errsWith]

/-- C7: for every password, both constructors build the Authorization header exactly
as the string `Basic` followed by a space and the base64 encoding of `:` concatenated
with the password; a client is only produced carrying exactly that header, and
construction fails with the build-time `BuildError` variant precisely when the header
value has invalid header characters. -/
theorem c7_auth_header_built_once (conf : ClientConf) (exec : Transport)
    (buildRes : Except ReqwestErr Unit) :
    authValue conf.password = "Basic " ++ base64Encode (strBytes (":" ++ conf.password)) ∧
    (∀ c, (NativeClient.new conf exec buildRes).1 = Except.ok c →
      c.authHeader = authValue conf.password) ∧
    (∀ impl, SiaApiClientImpl.new conf.url conf.password buildRes = Except.ok impl →
      impl.authHeader = authValue conf.password) ∧
    errsWith ApiClientError.isBuildErrorVariant ((NativeClient.new conf exec buildRes).1)
        = !exceptIsOk (headerValueFromStr (authValue conf.password)) ∧
    errsWith SiaApiClientError.isBuildErrorVariant
        (SiaApiClientImpl.new conf.url conf.password buildRes)
        = !exceptIsOk (headerValueFromStr (authValue conf.password)) := by
  refine ⟨rfl, ?_, ?_, ?_, ?_⟩
  · intro c hc
    unfold NativeClient.new at hc
    cases hh : headerValueFromStr (authValue conf.password) with
    | error e => rw [hh] at hc; simp at hc
    | ok s =>
      rw [hh] at hc
      cases buildRes with
      | error e => simp at hc
      | ok uu =>
        simp only [] at hc
        cases hd : (NativeClient.mk (authValue conf.password) (conf.timeout.getD 10)
            conf.url).dispatcher ConsensusTipRequest exec 0 with
        | mk r m =>
          rw [hd] at hc
          cases r with
          | error e => simp at hc
          | ok v =>
            simp at hc
            rw [← hc]
  · intro impl himpl
    unfold SiaApiClientImpl.new at himpl
    cases hh : headerValueFromStr (authValue conf.password) with
    | error e => rw [hh] at himpl; simp at himpl
    | ok s =>
      rw [hh] at himpl
      cases buildRes with
      | error e => simp at himpl
      | ok uu =>
        simp at himpl
        rw [← himpl]
  · unfold NativeClient.new
    cases hh : headerValueFromStr (authValue conf.password) with
    | error e => simp [errsWith, ApiClientError.isBuildErrorVariant, exceptIsOk]
    | ok s =>
      cases buildRes with
      | error e => simp [errsWith, ApiClientError.isBuildErrorVariant, exceptIsOk]
      | ok uu =>
        simp only [exceptIsOk, Bool.not_true]
        have hclient := dispatcher_tip_no_build_error
          (NativeClient.mk (authValue conf.password) (conf.timeout.getD 10) conf.url) exec 0
        cases hd : (NativeClient.mk (authValue conf.password) (conf.timeout.getD 10)
            conf.url).dispatcher ConsensusTipRequest exec 0 with
        | mk r m =>
          rw [hd] at hclient
          cases r with
          | error e => simpa [hd] using hclient.1
          | ok v => simp [hd, errsWith]
  · unfold SiaApiClientImpl.new
    cases hh : headerValueFromStr (authValue conf.password) with
    | error e =>
      simp [errsWith, SiaApiClientError.isBuildErrorVariant, exceptIsOk]
    | ok s =>
      cases buildRes with
      | error e => simp [errsWith, SiaApiClientError.isBuildErrorVariant, exceptIsOk]
      | ok uu => simp [errsWith, exceptIsOk]

/-- Closed instance of C7: the example password yields exactly the expected header
on the produced client, and no build error occurs. -/
theorem c7_auth_header_built_once_witness :
    (NativeClient.new exampleConf tipMockTransport (Except.ok ())).1 =
      Except.ok exampleClient ∧
    exampleClient.authHeader = authValue "password" ∧
    authValue "password" = "Basic OnBhc3N3b3Jk" :=
  ⟨by decide,
   (c7_auth_header_built_once exampleConf tipMockTransport (Except.ok ())).2.1
     exampleClient (by decide),
   by decide⟩

/-- C8: `current_height` is exactly dispatching the consensus-tip request and
projecting out the `height` field — same error, same transport call count, no new
failure mode — and against a transport whose tip endpoint answers with height 500000,
a client built from the spec's example configuration returns 500000. -/
theorem c8_current_height_is_tip_projection :
    (∀ (c : NativeClient) (exec : Transport) (n : Nat),
      (c.current_height exec n).1 =
        Except.map GetConsensusTipResponse.height
          ((c.dispatcher ConsensusTipRequest exec n).1) ∧
      (c.current_height exec n).2 = (c.dispatcher ConsensusTipRequest exec n).2) ∧
    Except.map (fun cl => (NativeClient.current_height cl tipMockTransport 1).1)
        ((NativeClient.new exampleConf tipMockTransport (Except.ok ())).1) =
      Except.ok (Except.ok 500000) := by
  constructor
  · intro c exec n
    unfold NativeClient.current_height
    cases hd : c.dispatcher ConsensusTipRequest exec n with
    | mk r m =>
      cases r with
      | error e => simp [Except.map]
      | ok resp => simp [Except.map]
  · decide

/-- C9: `SiaApiClientImpl::get_consensus_tip` performs no status-code resolution —
any response whose body decodes as `GetConsensusTipResponse` is returned as success
whatever its status code, and every failure it returns is either a `UrlParse` error or
a `ReqwestError`, never an unexpected-status or timeout-specific variant. -/
theorem c9_get_consensus_tip_ignores_status (c : SiaApiClientImpl)
    (exec : TransportRequest → Except ReqwestErr HttpResponse) :
    (∀ u resp v, c.base_url.join "api/consensus/tip" = Except.ok u →
      exec (TransportRequest.mk HttpMethod.GET u) = Except.ok resp →
      decodeTip resp.body = some v →
      c.get_consensus_tip exec = Except.ok v) ∧
    (∀ e, c.get_consensus_tip exec = Except.error e →
      (∃ m, e = SiaApiClientError.UrlParse m) ∨
      (∃ re, e = SiaApiClientError.ReqwestError re)) := by
  constructor
  · intro u resp v hju he hd
    unfold SiaApiClientImpl.get_consensus_tip
    rw [hju]
    simp [he, hd]
  · intro e herr
    unfold SiaApiClientImpl.get_consensus_tip at herr
    cases hj : c.base_url.join "api/consensus/tip" with
    | error m =>
      rw [hj] at herr
      simp at herr
      exact Or.inl ⟨m, herr.symm⟩
    | ok endpoint_url =>
      rw [hj] at herr
      cases hx : exec (TransportRequest.mk HttpMethod.GET endpoint_url) with
      | error re =>
        simp only [hx] at herr
        simp at herr
        exact Or.inr ⟨re.with_url endpoint_url.s, herr.symm⟩
      | ok resp =>
        cases hd : decodeTip resp.body with
        | some v =>
          simp only [hx, hd] at herr
          simp at herr
        | none =>
          simp only [hx, hd] at herr
          simp at herr
          exact Or.inr ⟨_, herr.symm⟩

/-- Closed instance of C9: a 500-status response with a well-formed tip body is
returned as success, the status never being consulted. -/
theorem c9_get_consensus_tip_ignores_status_witness :
    siaExampleClient.get_consensus_tip status500TipExec =
      Except.ok (GetConsensusTipResponse.mk 500000 "abc") :=
  (c9_get_consensus_tip_ignores_status siaExampleClient status500TipExec).1
    (Url.mk "https://node.example/api/consensus/tip")
    (HttpResponse.mk 500 (Body.consensusTip 500000 "abc"))
    (GetConsensusTipResponse.mk 500000 "abc") (by decide) rfl rfl

/-- C10: the `coin_ticker` argument of `SiaApiClient::new` has no effect — for any two
ticker strings and the same base URL, credential and builder outcome, construction
returns identical results, so every subsequent operation behaves identically. -/
theorem c10_coin_ticker_has_no_effect (t1 t2 : String) (base_url : Url) (auth : String)
    (buildRes : Except ReqwestErr Unit) :
    SiaApiClient.new t1 base_url auth buildRes = SiaApiClient.new t2 base_url auth buildRes :=
  rfl
